import Mathlib

/-!
# Verification of `flask_cloudflare.py` (klokantech/flask-cloudflare)

Shallow embedding of the CloudFlare API client: the query object
(`APIQuery`), its fluent operations (`filter`, `values`), the send /
envelope-validation step, the pagination walk of `__iter__`, and the
Flask application-context caching of `CloudFlare.api`.

JSON values are modelled by the inductive `JVal`; Python dictionaries by
insertion-ordered association lists with `dictSet` mirroring
`dict.__setitem__` / `dict.update` (existing keys are overwritten in
place, new keys appended).  The external HTTP world is modelled either
as a stream of already-parsed responses consumed in order
(`iterStream`) or as a function from the prepared request to a response
(`iterServe`), the latter needed to speak about re-iterating a query
whose descriptor was mutated by a previous traversal.
-/

/-- A JSON value (`json` module values on the Python side). -/
inductive JVal where
  | null : JVal
  | bool : Bool → JVal
  | num : Int → JVal
  | str : String → JVal
  | arr : List JVal → JVal
  | obj : List (String × JVal) → JVal
deriving Repr

/-- Python `dict.__getitem__` / `dict.get` on an insertion-ordered
association list. -/
def dictGet {α : Type} : List (String × α) → String → Option α
  | [], _ => none
  | (k0, v) :: t, k => if k = k0 then some v else dictGet t k

/-- Python `dict.__setitem__` on an insertion-ordered association list:
an existing key is overwritten in place, a new key is appended. -/
def dictSet {α : Type} (m : List (String × α)) (k : String) (v : α) :
    List (String × α) :=
  if (dictGet m k).isSome then
    m.map (fun p => if p.1 = k then (k, v) else p)
  else
    m ++ [(k, v)]

/-- Python `dict.update`: fold `dictSet` over the new bindings. -/
def dictUpdate {α : Type} (m : List (String × α)) (kws : List (String × α)) :
    List (String × α) :=
  kws.foldl (fun acc p => dictSet acc p.1 p.2) m

/-- A `requests.Request` descriptor: method, URL, query-string params,
headers and optional body (`data`).  `requests.Request(method, url)`
starts with empty params and headers and no body. -/
structure Request where
  method : String
  url : String
  params : List (String × JVal) := []
  headers : List (String × String) := []
  data : Option String := none
deriving Repr

/-- The state of an `APIQuery`: the request descriptor it owns and the
accumulated JSON payload (`self.payload`, initially `{}`). -/
structure APIQuery where
  request : Request
  payload : List (String × JVal) := []
deriving Repr

/-- `API.request`: compose the base-URL-prefixed descriptor from a
method and a path. -/
def API.request (method : String) (path : List String) : Request :=
  { method := method
    url := "https://api.cloudflare.com/client/v4/" ++ String.intercalate "/" path }

/-- `API.get`: a fresh GET query. -/
def API.get (path : List String) : APIQuery :=
  { request := API.request "GET" path }

/-- `API.post`: a fresh POST query. -/
def API.post (path : List String) : APIQuery :=
  { request := API.request "POST" path }

/-- `API.put`: a fresh PUT query. -/
def API.put (path : List String) : APIQuery :=
  { request := API.request "PUT" path }

/-- `API.delete`: a fresh DELETE query. -/
def API.delete (path : List String) : APIQuery :=
  { request := API.request "DELETE" path }

/-- Errors surfaced by the query object.  `usageError` is the failed
`assert` of the fluent interface (the spec's `UsageError`); `apiError`
is the `APIError` raised by `send`; `noResponse` marks exhaustion of
the modelled response stream; `badResult` marks a `result` value the
generator cannot iterate (absent key or a non-object non-sequence). -/
inductive QueryError where
  | usageError : QueryError
  | apiError : QueryError
  | noResponse : QueryError
  | badResult : QueryError
deriving Repr, DecidableEq

/-- `APIQuery.filter`: `assert self.request.method == 'GET'`, then
`self.request.params.update(kwargs)`; returns the (updated) query. -/
def APIQuery.filter (q : APIQuery) (kwargs : List (String × JVal)) :
    Except QueryError APIQuery :=
  if q.request.method = "GET" then
    .ok { q with request := { q.request with
            params := dictUpdate q.request.params kwargs } }
  else
    .error .usageError

/-- `APIQuery.values`: `assert self.request.method in {'POST', 'PUT'}`,
then `self.payload.update(kwargs)`; returns the (updated) query. -/
def APIQuery.values (q : APIQuery) (kwargs : List (String × JVal)) :
    Except QueryError APIQuery :=
  if q.request.method = "POST" ∨ q.request.method = "PUT" then
    .ok { q with payload := dictUpdate q.payload kwargs }
  else
    .error .usageError

/-- The `result_info` pagination block of a response envelope. -/
structure RInfo where
  count : Int
  per_page : Int
  page : Int
deriving Repr

/-- A parsed response body.  `success` is `data.get('success')`
(`none` when the key is absent), `result` is the optional `result`
entry, `result_info` the optional pagination block. -/
structure Envelope where
  success : Option Bool := none
  result : Option JVal := none
  result_info : Option RInfo := none
deriving Repr

/-- A raw HTTP response as seen by `send` after the transport layer:
`none` models a body that `response.json()` cannot parse, `some e` a
body parsed into the envelope `e`. -/
abbrev Response : Type := Option Envelope

mutual

/-- `json.dumps` (default separators), for JSON values. -/
def jsonDumps : JVal → String
  | .null => "null"
  | .bool true => "true"
  | .bool false => "false"
  | .num n => toString n
  | .str s => "\"" ++ s ++ "\""
  | .arr xs => "[" ++ jsonDumpsArr xs ++ "]"
  | .obj fs => "\x7b" ++ jsonDumpsObj fs ++ "\x7d"

/-- Serialize the elements of a JSON array, comma-separated. -/
def jsonDumpsArr : List JVal → String
  | [] => ""
  | [x] => jsonDumps x
  | x :: xs => jsonDumps x ++ ", " ++ jsonDumpsArr xs

/-- Serialize the fields of a JSON object, comma-separated. -/
def jsonDumpsObj : List (String × JVal) → String
  | [] => ""
  | [(k, v)] => "\"" ++ k ++ "\": " ++ jsonDumps v
  | (k, v) :: fs => "\"" ++ k ++ "\": " ++ jsonDumps v ++ ", " ++ jsonDumpsObj fs

end

/-- The request-mutating half of `APIQuery.send`: if the payload is
non-empty, set the `Content-Type` header and serialize the payload into
the request body; otherwise leave the request untouched. -/
def APIQuery.sendPrep (q : APIQuery) : APIQuery :=
  match q.payload with
  | [] => q
  | _ :: _ =>
    { q with request := { q.request with
        headers := dictSet q.request.headers "Content-Type" "application/json"
        data := some (jsonDumps (.obj q.payload)) } }

/-- The response-validating half of `APIQuery.send`: raise `APIError`
when the body does not parse or when `data.get('success', False)` is
not truthy; otherwise return the parsed envelope. -/
def APIQuery.sendCheck (resp : Response) : Except QueryError Envelope :=
  match resp with
  | none => .error .apiError
  | some e =>
    match e.success with
    | some true => .ok e
    | _ => .error .apiError

/-- `APIQuery.send` against a given wire response: prepare the request,
then validate the response.  Returns the parsed envelope together with
the query state (whose descriptor now carries any body/header set by
the preparation step). -/
def APIQuery.send (q : APIQuery) (resp : Response) :
    Except QueryError (Envelope × APIQuery) :=
  (APIQuery.sendCheck resp).map (fun e => (e, q.sendPrep))

/-- One pagination step of `__iter__` applied to the envelope `e`
returned for the (already prepared) query `q`:
* a `dict` result is yielded alone and iteration stops;
* a sequence result is yielded element-wise; then, if `result_info` is
  absent the iteration stops, else the method must be GET
  (`assert`), a short page (`count < per_page`) stops, and otherwise
  the descriptor's `page` param is set to `result_info.page + 1` and
  `cont` says to go on from the mutated state. -/
inductive StepOut where
  | stop : List JVal → StepOut
  | cont : List JVal → APIQuery → StepOut
  | fail : QueryError → StepOut

/-- `self.request.params['page'] = p`: the descriptor mutation that
moves the pagination cursor. -/
def APIQuery.setPage (q : APIQuery) (p : Int) : APIQuery :=
  { q with request := { q.request with
      params := dictSet q.request.params "page" (.num p) } }

/-- The body of the `while True` loop of `APIQuery.__iter__`, after
`send` has produced envelope `e` for the prepared query `q`. -/
def APIQuery.iterStep (q : APIQuery) (e : Envelope) : StepOut :=
  match e.result with
  | none => .fail .badResult
  | some (.obj o) => .stop [.obj o]
  | some (.arr xs) =>
    match e.result_info with
    | none => .stop xs
    | some info =>
      if q.request.method = "GET" then
        if info.count < info.per_page then .stop xs
        else .cont xs (q.setPage (info.page + 1))
      else .fail .usageError
  | some _ => .fail .badResult

/-- `APIQuery.__iter__` run against a stream of wire responses consumed
in order (each `send` pops the next response; an exhausted stream is
`noResponse`).  Returns the yielded items in order, the trace of
request descriptors sent, and the final query state. -/
def APIQuery.iterStream (q : APIQuery) :
    List Response → Except QueryError (List JVal × List Request × APIQuery)
  | [] => .error .noResponse
  | resp :: rest =>
    match q.send resp with
    | .error err => .error err
    | .ok (e, q1) =>
      match q1.iterStep e with
      | .fail err => .error err
      | .stop xs => .ok (xs, [q1.request], q1)
      | .cont xs q2 =>
        match q2.iterStream rest with
        | .error err => .error err
        | .ok (ys, tr, qf) => .ok (xs ++ ys, q1.request :: tr, qf)

/-- `APIQuery.all` over a response stream: drain the iterator into a
list. -/
def APIQuery.all (q : APIQuery) (resps : List Response) :
    Except QueryError (List JVal) :=
  (q.iterStream resps).map (fun out => out.1)

/-- `APIQuery.first` over a response stream:
`next(iter(self), None)`. -/
def APIQuery.first (q : APIQuery) (resps : List Response) :
    Except QueryError (Option JVal) :=
  (q.all resps).map List.head?

/-- `APIQuery.__iter__` run against a server modelled as a function
from the prepared request descriptor to the wire response, with a fuel
bound on the number of round trips.  This is the model that can
describe a second traversal of the same query object: a generator
function restarts from the (mutated) descriptor each time `__iter__`
is called. -/
def APIQuery.iterServe (server : Request → Response) :
    Nat → APIQuery → Except QueryError (List JVal × List Request × APIQuery)
  | 0, _ => .error .noResponse
  | fuel + 1, q =>
    match q.send (server q.sendPrep.request) with
    | .error err => .error err
    | .ok (e, q1) =>
      match q1.iterStep e with
      | .fail err => .error err
      | .stop xs => .ok (xs, [q1.request], q1)
      | .cont xs q2 =>
        match APIQuery.iterServe server fuel q2 with
        | .error err => .error err
        | .ok (ys, tr, qf) => .ok (xs ++ ys, q1.request :: tr, qf)

/-- The `CloudFlare.api` property's view of a Flask application
context: the attribute it reads (`ctx.cloudflare_api`) and the
attribute it writes (`ctx.api`), each optionally holding an API handle
(handles are identified by the order in which they were built). -/
structure AppCtx where
  cloudflare_api : Option Nat := none
  api : Option Nat := none
deriving Repr, DecidableEq

/-- `CloudFlare.api`: read `getattr(ctx, 'cloudflare_api', None)`; if
absent, build a fresh handle (`API(self.session())`, identity supplied
as `fresh`) and store it as `ctx.api`; return the handle. -/
def CloudFlare.api (fresh : Nat) (ctx : AppCtx) : Nat × AppCtx :=
  match ctx.cloudflare_api with
  | some a => (a, ctx)
  | none => (fresh, { ctx with api := some fresh })

/-- Wrap a list of parsed envelopes as the stream of wire responses
(all bodies parse). -/
def okStream (envs : List Envelope) : List Response := envs.map some

/-- The elements yielded for one envelope whose `result` is a
sequence. -/
def resultElems (e : Envelope) : List JVal :=
  match e.result with
  | some (.arr xs) => xs
  | _ => []

/-- The `result_info.page` of an envelope (0 when absent; only used on
envelopes whose `result_info` is present). -/
def pageOf (e : Envelope) : Int :=
  match e.result_info with
  | some i => i.page
  | none => 0

/-- A "full page" envelope: parses with `success`, a sequence
`result`, and a `result_info` whose `count` is not below `per_page` —
the shape on which `__iter__` keeps paginating. -/
def FullEnv (e : Envelope) : Prop :=
  e.success = some true ∧ (∃ xs, e.result = some (.arr xs)) ∧
    ∃ i, e.result_info = some i ∧ i.per_page ≤ i.count

/-- A terminating sequence envelope: `success`, a sequence `result`,
and either no `result_info` or a short page
(`count < per_page`). -/
def TerminalEnv (e : Envelope) : Prop :=
  e.success = some true ∧ (∃ xs, e.result = some (.arr xs)) ∧
    (e.result_info = none ∨ ∃ i, e.result_info = some i ∧ i.count < i.per_page)

/-- The descriptor mutation performed after consuming the full page
`e`: set the `page` param to `e.result_info.page + 1`. -/
def advance (q : APIQuery) (e : Envelope) : APIQuery :=
  q.setPage (pageOf e + 1)

/-- The query state after consuming a list of full pages. -/
def preState (q : APIQuery) : List Envelope → APIQuery
  | [] => q
  | e :: pre => preState (advance q e) pre

/-- The elements yielded while consuming a list of sequence
envelopes, in order. -/
def preItems : List Envelope → List JVal
  | [] => []
  | e :: pre => resultElems e ++ preItems pre

/-- The requests `__iter__` sends while consuming a list of full pages
(one request per page, not counting the request that follows). -/
def preTrace (q : APIQuery) : List Envelope → List Request
  | [] => []
  | e :: pre => q.request :: preTrace (advance q e) pre

/-- The `page` query-string param of a request descriptor. -/
def pageParam (r : Request) : Option JVal := dictGet r.params "page"

/-- A fluent-interface operation applied to a query object before it is
executed. -/
inductive QOp where
  | filterOp : List (String × JVal) → QOp
  | valuesOp : List (String × JVal) → QOp

/-- Apply one fluent operation; a failed `assert` raises before any
mutation, leaving the query unchanged. -/
def applyOp (q : APIQuery) : QOp → APIQuery
  | .filterOp kw =>
    match q.filter kw with
    | .ok q' => q'
    | .error _ => q
  | .valuesOp kw =>
    match q.values kw with
    | .ok q' => q'
    | .error _ => q

/-- Apply a sequence of fluent operations in order. -/
def runOps (q : APIQuery) : List QOp → APIQuery
  | [] => q
  | op :: ops => runOps (applyOp q op) ops

/-- A stream of full pages as in the exact-multiple scenario: page `j`
(counting from `start`) carries the elements `pages[j]` and
`result_info = (count := pp, per_page := pp, page := start + j)`. -/
def fullEnvsOf (pp : Int) : Int → List (List JVal) → List Envelope
  | _, [] => []
  | start, xs :: rest =>
    { success := some true, result := some (.arr xs),
      result_info := some { count := pp, per_page := pp, page := start } } ::
      fullEnvsOf pp (start + 1) rest

/-- The final, empty page returned after an exact-multiple result set:
`count = 0`, same `per_page`, page number `p`. -/
def emptyLastEnv (pp p : Int) : Envelope :=
  { success := some true, result := some (.arr []),
    result_info := some { count := 0, per_page := pp, page := p } }

/-- A concrete GET query that has already accumulated one filter, as
after `api.get('zones').filter(name='example.org')`. -/
def filteredZones : APIQuery :=
  { request :=
      { method := "GET"
        url := "https://api.cloudflare.com/client/v4/zones"
        params := [("name", JVal.str "example.org")] } }

theorem dictGet_map_set {α : Type} (m : List (String × α)) (k : String) (v : α)
    (h : (dictGet m k).isSome) :
    dictGet (m.map (fun p => if p.1 = k then (k, v) else p)) k = some v := by
  induction m with
  | nil => simp [dictGet] at h
  | cons p t ih =>
    obtain ⟨k0, v0⟩ := p
    by_cases hk : k = k0
    · subst hk
      rw [List.map_cons, if_pos (show ((k, v0) : String × α).1 = k from rfl)]
      simp [dictGet]
    · have h' : (dictGet t k).isSome := by
        simpa [dictGet, hk] using h
      rw [List.map_cons,
        if_neg (show ¬ ((k0, v0) : String × α).1 = k from fun hc => hk hc.symm)]
      simpa [dictGet, hk] using ih h'

theorem dictGet_map_set_ne {α : Type} (m : List (String × α)) (k k' : String) (v : α)
    (h : k' ≠ k) :
    dictGet (m.map (fun p => if p.1 = k then (k, v) else p)) k' = dictGet m k' := by
  induction m with
  | nil => rfl
  | cons p t ih =>
    obtain ⟨k0, v0⟩ := p
    by_cases h0 : k0 = k
    · subst h0
      rw [List.map_cons, if_pos (show ((k0, v0) : String × α).1 = k0 from rfl)]
      simp [dictGet, h, ih]
    · rw [List.map_cons, if_neg (show ¬ ((k0, v0) : String × α).1 = k from h0)]
      by_cases hk' : k' = k0
      · simp [dictGet, hk']
      · simp [dictGet, hk', ih]

theorem dictGet_append_ne {α : Type} (m : List (String × α)) (k k' : String) (v : α)
    (h : k' ≠ k) : dictGet (m ++ [(k, v)]) k' = dictGet m k' := by
  induction m with
  | nil => simp [dictGet, h]
  | cons p t ih =>
    obtain ⟨k0, v0⟩ := p
    by_cases hk' : k' = k0
    · simp [dictGet, hk']
    · simp [dictGet, hk', ih]

theorem dictGet_append_self {α : Type} (m : List (String × α)) (k : String) (v : α)
    (h : ¬ (dictGet m k).isSome) :
    dictGet (m ++ [(k, v)]) k = some v := by
  induction m with
  | nil => simp [dictGet]
  | cons p t ih =>
    obtain ⟨k0, v0⟩ := p
    by_cases hk : k = k0
    · subst hk
      simp [dictGet] at h
    · have h' : ¬ (dictGet t k).isSome := by
        simpa [dictGet, hk] using h
      simpa [dictGet, hk] using ih h'

theorem dictGet_dictSet_self {α : Type} (m : List (String × α)) (k : String) (v : α) :
    dictGet (dictSet m k v) k = some v := by
  unfold dictSet
  by_cases h : (dictGet m k).isSome
  · simpa [h] using dictGet_map_set m k v h
  · simpa [h] using dictGet_append_self m k v h

theorem dictGet_dictSet_ne {α : Type} (m : List (String × α)) (k k' : String) (v : α)
    (h : k' ≠ k) : dictGet (dictSet m k v) k' = dictGet m k' := by
  unfold dictSet
  by_cases hs : (dictGet m k).isSome
  · simpa [hs] using dictGet_map_set_ne m k k' v h
  · simpa [hs] using dictGet_append_ne m k k' v h

theorem sendPrep_of_payload_nil {q : APIQuery} (h : q.payload = []) :
    q.sendPrep = q := by
  obtain ⟨r, p⟩ := q
  simp only at h
  subst h
  rfl

theorem sendPrep_payload (q : APIQuery) : q.sendPrep.payload = q.payload := by
  unfold APIQuery.sendPrep
  cases h : q.payload <;> simp [h]

theorem sendPrep_method (q : APIQuery) : q.sendPrep.request.method = q.request.method := by
  unfold APIQuery.sendPrep
  cases h : q.payload <;> simp

theorem sendPrep_url (q : APIQuery) : q.sendPrep.request.url = q.request.url := by
  unfold APIQuery.sendPrep
  cases h : q.payload <;> simp

theorem sendPrep_params (q : APIQuery) : q.sendPrep.request.params = q.request.params := by
  unfold APIQuery.sendPrep
  cases h : q.payload <;> simp

theorem setPage_method (q : APIQuery) (p : Int) :
    (q.setPage p).request.method = q.request.method := rfl

theorem setPage_url (q : APIQuery) (p : Int) :
    (q.setPage p).request.url = q.request.url := rfl

theorem setPage_headers (q : APIQuery) (p : Int) :
    (q.setPage p).request.headers = q.request.headers := rfl

theorem setPage_data (q : APIQuery) (p : Int) :
    (q.setPage p).request.data = q.request.data := rfl

theorem setPage_payload (q : APIQuery) (p : Int) :
    (q.setPage p).payload = q.payload := rfl

theorem pageParam_setPage (q : APIQuery) (p : Int) :
    pageParam (q.setPage p).request = some (.num p) :=
  dictGet_dictSet_self _ _ _

theorem setPage_params_ne (q : APIQuery) (p : Int) (k : String) (h : k ≠ "page") :
    dictGet (q.setPage p).request.params k = dictGet q.request.params k :=
  dictGet_dictSet_ne _ _ _ _ h

theorem advance_method (q : APIQuery) (e : Envelope) :
    (advance q e).request.method = q.request.method := rfl

theorem advance_payload (q : APIQuery) (e : Envelope) :
    (advance q e).payload = q.payload := rfl

theorem preState_method (pre : List Envelope) :
    ∀ q : APIQuery, (preState q pre).request.method = q.request.method := by
  induction pre with
  | nil => intro q; rfl
  | cons e pre ih => intro q; simpa [preState] using ih (advance q e)

theorem preState_payload (pre : List Envelope) :
    ∀ q : APIQuery, (preState q pre).payload = q.payload := by
  induction pre with
  | nil => intro q; rfl
  | cons e pre ih => intro q; simpa [preState] using ih (advance q e)

/-- The `page` params carried by the full walk trace: the first request
keeps the query's own `page` param, and every following request carries
the previous envelope's `result_info.page + 1`. -/
theorem preTrace_snoc_pages (pre : List Envelope) :
    ∀ q : APIQuery,
      (preTrace q pre ++ [(preState q pre).request]).map pageParam =
        pageParam q.request :: pre.map (fun e => some (.num (pageOf e + 1))) := by
  induction pre with
  | nil => intro q; rfl
  | cons e pre ih =>
    intro q
    have hpage : pageParam (advance q e).request = some (.num (pageOf e + 1)) :=
      pageParam_setPage q (pageOf e + 1)
    have := ih (advance q e)
    simp only [preTrace, preState, List.cons_append, List.map_cons, List.map_cons] at this ⊢
    rw [this, hpage]

/-- Iterating from an envelope whose `result` is a single object: the
object is yielded alone, one request is sent, and neither
`result_info` nor the rest of the stream is consulted. -/
theorem iterStream_obj (q : APIQuery) (e : Envelope) (rest : List Response)
    (o : List (String × JVal)) (hs : e.success = some true)
    (hr : e.result = some (.obj o)) :
    q.iterStream (some e :: rest) =
      .ok ([.obj o], [q.sendPrep.request], q.sendPrep) := by
  simp [APIQuery.iterStream, APIQuery.send, APIQuery.sendCheck, hs,
    Except.map, APIQuery.iterStep, hr]

/-- Iterating a GET query with empty payload from a terminating
sequence envelope: its elements are yielded, one request is sent, the
descriptor is not mutated, and the rest of the stream is not
consulted. -/
theorem iterStream_terminal (q : APIQuery) (e : Envelope) (rest : List Response)
    (hm : q.request.method = "GET") (hq : q.payload = [])
    (ht : TerminalEnv e) :
    q.iterStream (some e :: rest) = .ok (resultElems e, [q.request], q) := by
  obtain ⟨hs, ⟨xs, hr⟩, hinfo⟩ := ht
  have hprep : q.sendPrep = q := sendPrep_of_payload_nil hq
  rcases hinfo with hnone | ⟨i, hsome, hshort⟩
  · simp [APIQuery.iterStream, APIQuery.send, APIQuery.sendCheck, hs, hprep,
      Except.map, APIQuery.iterStep, hr, hnone, resultElems]
  · simp [APIQuery.iterStream, APIQuery.send, APIQuery.sendCheck, hs, hprep,
      Except.map, APIQuery.iterStep, hr, hsome, hm, hshort, resultElems]

/-- Consuming a list of full pages: each page's elements are yielded in
order, one request is sent per page, and after each full page the
descriptor's `page` param is advanced to that page's
`result_info.page + 1` before the walk continues with the remaining
stream. -/
theorem iterStream_full_run (pre : List Envelope) :
    ∀ (q : APIQuery) (rest : List Response),
      q.request.method = "GET" → q.payload = [] → (∀ e ∈ pre, FullEnv e) →
      q.iterStream (okStream pre ++ rest) =
        match (preState q pre).iterStream rest with
        | .ok (ys, tr, qf) => .ok (preItems pre ++ ys, preTrace q pre ++ tr, qf)
        | .error err => .error err := by
  induction pre with
  | nil =>
    intro q rest _ _ _
    simp only [okStream, List.map_nil, List.nil_append, preState, preItems, preTrace]
    cases h : q.iterStream rest with
    | ok out => obtain ⟨ys, tr, qf⟩ := out; simp
    | error err => simp
  | cons e pre ih =>
    intro q rest hm hq hfull
    obtain ⟨hs, ⟨xs, hr⟩, i, hsome, hfullpage⟩ := hfull e (List.mem_cons_self e pre)
    have hprep : q.sendPrep = q := sendPrep_of_payload_nil hq
    have hnotshort : ¬ i.count < i.per_page := not_lt.mpr hfullpage
    have hadv : q.setPage (i.page + 1) = advance q e := by
      simp [advance, pageOf, hsome]
    have hrec := ih (advance q e) rest (by simpa [advance_method] using hm)
      (by simpa [advance_payload] using hq)
      (fun x hx => hfull x (List.mem_cons_of_mem e hx))
    have hrec' : (advance q e).iterStream (List.map some pre ++ rest) =
        match (preState (advance q e) pre).iterStream rest with
        | .ok (ys, tr, qf) =>
            .ok (preItems pre ++ ys, preTrace (advance q e) pre ++ tr, qf)
        | .error err => .error err := by
      simpa [okStream] using hrec
    simp only [okStream, List.map_cons, List.cons_append, APIQuery.iterStream,
      APIQuery.send, APIQuery.sendCheck, hs, Except.map, hprep,
      APIQuery.iterStep, hr, hsome, hm, eq_self_iff_true, if_true,
      if_neg hnotshort, hadv, List.append_eq]
    rw [hrec']
    cases h : (preState (advance q e) pre).iterStream rest with
    | ok out =>
      obtain ⟨ys, tr, qf⟩ := out
      simp only [preState, preItems, preTrace]
      rw [h]
      simp [resultElems, hr]
    | error err =>
      simp only [preState, preItems, preTrace]
      rw [h]

theorem applyOp_method (q : APIQuery) (op : QOp) :
    (applyOp q op).request.method = q.request.method := by
  cases op with
  | filterOp kw =>
    unfold applyOp APIQuery.filter
    by_cases h : q.request.method = "GET" <;> simp [h]
  | valuesOp kw =>
    unfold applyOp APIQuery.values
    by_cases h : q.request.method = "POST" ∨ q.request.method = "PUT" <;> simp [h]

theorem applyOp_url (q : APIQuery) (op : QOp) :
    (applyOp q op).request.url = q.request.url := by
  cases op with
  | filterOp kw =>
    unfold applyOp APIQuery.filter
    by_cases h : q.request.method = "GET" <;> simp [h]
  | valuesOp kw =>
    unfold applyOp APIQuery.values
    by_cases h : q.request.method = "POST" ∨ q.request.method = "PUT" <;> simp [h]

theorem applyOp_headers (q : APIQuery) (op : QOp) :
    (applyOp q op).request.headers = q.request.headers := by
  cases op with
  | filterOp kw =>
    unfold applyOp APIQuery.filter
    by_cases h : q.request.method = "GET" <;> simp [h]
  | valuesOp kw =>
    unfold applyOp APIQuery.values
    by_cases h : q.request.method = "POST" ∨ q.request.method = "PUT" <;> simp [h]

theorem applyOp_data (q : APIQuery) (op : QOp) :
    (applyOp q op).request.data = q.request.data := by
  cases op with
  | filterOp kw =>
    unfold applyOp APIQuery.filter
    by_cases h : q.request.method = "GET" <;> simp [h]
  | valuesOp kw =>
    unfold applyOp APIQuery.values
    by_cases h : q.request.method = "POST" ∨ q.request.method = "PUT" <;> simp [h]

theorem applyOp_payload (q : APIQuery) (op : QOp)
    (hm : ¬ (q.request.method = "POST" ∨ q.request.method = "PUT")) :
    (applyOp q op).payload = q.payload := by
  cases op with
  | filterOp kw =>
    unfold applyOp APIQuery.filter
    by_cases h : q.request.method = "GET" <;> simp [h]
  | valuesOp kw =>
    unfold applyOp APIQuery.values
    simp [hm]

theorem fullEnvsOf_full (pp : Int) (pages : List (List JVal)) :
    ∀ start : Int, ∀ x ∈ fullEnvsOf pp start pages, FullEnv x := by
  induction pages with
  | nil => intro start x hx; simp [fullEnvsOf] at hx
  | cons xs rest ih =>
    intro start x hx
    rcases List.mem_cons.mp hx with hx | hx
    · subst hx
      exact ⟨rfl, ⟨xs, rfl⟩, _, rfl, le_refl pp⟩
    · exact ih (start + 1) x hx

theorem preItems_fullEnvsOf (pp : Int) (pages : List (List JVal)) :
    ∀ start : Int, preItems (fullEnvsOf pp start pages) = pages.flatten := by
  induction pages with
  | nil => intro start; rfl
  | cons xs rest ih =>
    intro start
    simp [fullEnvsOf, preItems, resultElems, ih (start + 1)]

theorem pages_fullEnvsOf (pp : Int) (pages : List (List JVal)) :
    ∀ start : Int,
      (fullEnvsOf pp start pages).map (fun x => some (JVal.num (pageOf x + 1))) =
        (List.range pages.length).map
          (fun j : Nat => some (JVal.num (start + ((j : Int) + 1)))) := by
  induction pages with
  | nil => intro start; rfl
  | cons xs rest ih =>
    intro start
    simp only [fullEnvsOf, List.map_cons, List.length_cons,
      List.range_succ_eq_map, List.map_map]
    rw [ih (start + 1)]
    have htail :
        List.map (fun j : Nat => some (JVal.num (start + 1 + ((j : Int) + 1))))
            (List.range rest.length) =
          List.map ((fun j : Nat => some (JVal.num (start + ((j : Int) + 1)))) ∘
            Nat.succ) (List.range rest.length) := by
      refine List.map_congr_left fun j hj => ?_
      simp only [Function.comp]
      congr 2
      push_cast
      ring
    rw [htail]
    simp [pageOf]

theorem fullEnvsOf_length (pp : Int) (pages : List (List JVal)) :
    ∀ start : Int, (fullEnvsOf pp start pages).length = pages.length := by
  induction pages with
  | nil => intro start; rfl
  | cons xs rest ih => intro start; simp [fullEnvsOf, ih (start + 1)]

theorem preTrace_length (pre : List Envelope) :
    ∀ q : APIQuery, (preTrace q pre).length = pre.length := by
  induction pre with
  | nil => intro q; rfl
  | cons e pre ih => intro q; simp [preTrace, ih (advance q e)]

theorem iterStep_cont_inv (q : APIQuery) (e : Envelope) (xs : List JVal)
    (q2 : APIQuery) (h : q.iterStep e = .cont xs q2) :
    (∃ p : Int, q2 = q.setPage p) ∧ e.result = some (.arr xs) := by
  unfold APIQuery.iterStep at h
  cases hres : e.result with
  | none => rw [hres] at h; simp at h
  | some v =>
    rw [hres] at h
    cases v with
    | null => simp at h
    | bool b => simp at h
    | num n => simp at h
    | str s => simp at h
    | obj o => simp at h
    | arr ys =>
      cases hinfo : e.result_info with
      | none => rw [hinfo] at h; simp at h
      | some i =>
        rw [hinfo] at h
        by_cases hm : q.request.method = "GET"
        · by_cases hshort : i.count < i.per_page
          · simp [hm, hshort] at h
          · simp only [hm, eq_self_iff_true, if_true, if_neg hshort,
              StepOut.cont.injEq] at h
            exact ⟨⟨i.page + 1, h.2.symm⟩, by simp [hres, h.1]⟩
        · simp [hm] at h

theorem iterServe_ok_state (server : Request → Response) (fuel : Nat) :
    ∀ (q : APIQuery) (items : List JVal) (tr : List Request) (qf : APIQuery),
      APIQuery.iterServe server fuel q = .ok (items, tr, qf) →
      tr.getLast? = some qf.request ∧ qf.payload = q.payload ∧
        qf.request.method = q.request.method := by
  induction fuel with
  | zero =>
    intro q items tr qf h
    simp [APIQuery.iterServe] at h
  | succ fuel ih =>
    intro q items tr qf h
    simp only [APIQuery.iterServe] at h
    cases hresp : server q.sendPrep.request with
    | none =>
      rw [hresp] at h
      simp [APIQuery.send, APIQuery.sendCheck, Except.map] at h
    | some e =>
      rw [hresp] at h
      cases hsucc : e.success with
      | none => simp [APIQuery.send, APIQuery.sendCheck, hsucc, Except.map] at h
      | some b =>
        cases b with
        | false => simp [APIQuery.send, APIQuery.sendCheck, hsucc, Except.map] at h
        | true =>
          simp only [APIQuery.send, APIQuery.sendCheck, hsucc, Except.map] at h
          cases hstep : q.sendPrep.iterStep e with
          | fail err => rw [hstep] at h; simp at h
          | stop xs =>
            rw [hstep] at h
            simp only [Except.ok.injEq, Prod.mk.injEq] at h
            obtain ⟨-, htr, hqf⟩ := h
            subst htr
            subst hqf
            exact ⟨by simp, sendPrep_payload q, sendPrep_method q⟩
          | cont xs q2 =>
            rw [hstep] at h
            simp only [] at h
            cases hrec : APIQuery.iterServe server fuel q2 with
            | error err => rw [hrec] at h; simp at h
            | ok out =>
              obtain ⟨ys, tr', qf'⟩ := out
              rw [hrec] at h
              simp only [Except.ok.injEq, Prod.mk.injEq] at h
              obtain ⟨-, htr, hqf⟩ := h
              subst htr
              subst hqf
              obtain ⟨hlast, hpay, hmeth⟩ := ih q2 ys tr' qf' hrec
              obtain ⟨⟨p, hq2⟩, -⟩ :=
                iterStep_cont_inv q.sendPrep e xs q2 hstep
              have hpay2 : q2.payload = q.payload := by
                rw [hq2, setPage_payload, sendPrep_payload]
              have hmeth2 : q2.request.method = q.request.method := by
                rw [hq2, setPage_method, sendPrep_method]
              refine ⟨?_, by rw [hpay, hpay2], by rw [hmeth, hmeth2]⟩
              cases tr' with
              | nil => simp at hlast
              | cons r0 t => rw [List.getLast?_cons_cons]; exact hlast

theorem iterStream_frame (resps : List Response) :
    ∀ (q : APIQuery) (items : List JVal) (tr : List Request) (qf : APIQuery),
      q.payload = [] →
      q.iterStream resps = .ok (items, tr, qf) →
      ∀ r ∈ tr, r.method = q.request.method ∧ r.url = q.request.url ∧
        r.headers = q.request.headers ∧ r.data = q.request.data ∧
        ∀ k : String, k ≠ "page" →
          dictGet r.params k = dictGet q.request.params k := by
  induction resps with
  | nil =>
    intro q items tr qf hp h
    simp [APIQuery.iterStream] at h
  | cons resp rest ih =>
    intro q items tr qf hp h
    simp only [APIQuery.iterStream] at h
    have hprep : q.sendPrep = q := sendPrep_of_payload_nil hp
    cases resp with
    | none => simp [APIQuery.send, APIQuery.sendCheck, Except.map] at h
    | some e =>
      cases hsucc : e.success with
      | none => simp [APIQuery.send, APIQuery.sendCheck, hsucc, Except.map] at h
      | some b =>
        cases b with
        | false => simp [APIQuery.send, APIQuery.sendCheck, hsucc, Except.map] at h
        | true =>
          simp only [APIQuery.send, APIQuery.sendCheck, hsucc, Except.map,
            hprep] at h
          cases hstep : q.iterStep e with
          | fail err => rw [hstep] at h; simp at h
          | stop xs =>
            rw [hstep] at h
            simp only [Except.ok.injEq, Prod.mk.injEq] at h
            obtain ⟨-, htr, -⟩ := h
            subst htr
            intro r hr
            rw [List.mem_singleton] at hr
            subst hr
            exact ⟨rfl, rfl, rfl, rfl, fun k _ => rfl⟩
          | cont xs q2 =>
            rw [hstep] at h
            simp only [] at h
            cases hrec : q2.iterStream rest with
            | error err => rw [hrec] at h; simp at h
            | ok out =>
              obtain ⟨ys, tr', qf'⟩ := out
              rw [hrec] at h
              simp only [Except.ok.injEq, Prod.mk.injEq] at h
              obtain ⟨-, htr, -⟩ := h
              subst htr
              obtain ⟨⟨p, hq2⟩, -⟩ := iterStep_cont_inv q e xs q2 hstep
              have hp2 : q2.payload = [] := by rw [hq2, setPage_payload, hp]
              have hframe := ih q2 ys tr' qf' hp2 hrec
              intro r hr
              rcases List.mem_cons.mp hr with hr | hr
              · subst hr
                exact ⟨rfl, rfl, rfl, rfl, fun k _ => rfl⟩
              · obtain ⟨h1, h2, h3, h4, h5⟩ := hframe r hr
                subst hq2
                refine ⟨by simpa [setPage_method] using h1,
                  by simpa [setPage_url] using h2,
                  by simpa [setPage_headers] using h3,
                  by simpa [setPage_data] using h4, fun k hk => ?_⟩
                rw [h5 k hk, setPage_params_ne q p k hk]

/-- C1 (amended: the next page is requested exactly when
`result_info.count >= result_info.per_page`, not only on equality; the
code's test is `count < per_page` for termination): for a GET query
with empty payload iterated over a stream of full sequence pages
followed by a terminating sequence envelope, iteration yields each
page's elements in order, sends one request per consumed envelope, and
every request after the first carries `params.page` equal to the
previous envelope's `result_info.page + 1`; a short page or an
absent `result_info` ends iteration with no further request. -/
theorem c1_pagination (pre : List Envelope) (e : Envelope) (rest : List Response)
    (q : APIQuery) (hm : q.request.method = "GET") (hp : q.payload = [])
    (hpre : ∀ x ∈ pre, FullEnv x) (hterm : TerminalEnv e) :
    q.iterStream (okStream pre ++ some e :: rest) =
      .ok (preItems pre ++ resultElems e,
           preTrace q pre ++ [(preState q pre).request], preState q pre) ∧
    (preTrace q pre ++ [(preState q pre).request]).map pageParam =
      pageParam q.request :: pre.map (fun x => some (.num (pageOf x + 1))) := by
  have hm' : (preState q pre).request.method = "GET" := by
    rw [preState_method]; exact hm
  have hp' : (preState q pre).payload = [] := by
    rw [preState_payload]; exact hp
  have h1 := iterStream_full_run pre q (some e :: rest) hm hp hpre
  have h2 := iterStream_terminal (preState q pre) e rest hm' hp' hterm
  constructor
  · rw [h1, h2]
  · exact preTrace_snoc_pages pre q

/-- C1, witness: one full page (`count = per_page = 2`, page 1)
followed by a short page; iteration yields both pages' elements and
the second request carries `page = 2`. -/
theorem c1_pagination_witness :
    ((API.get ["zones"]).request.method = "GET" ∧
      (API.get ["zones"]).payload = [] ∧
      FullEnv { success := some true, result := some (.arr [.num 1]),
                result_info := some { count := 2, per_page := 2, page := 1 } } ∧
      TerminalEnv { success := some true, result := some (.arr [.num 2]),
                    result_info := some { count := 1, per_page := 2, page := 2 } }) ∧
    (API.get ["zones"]).iterStream
        [some { success := some true, result := some (.arr [.num 1]),
                result_info := some { count := 2, per_page := 2, page := 1 } },
         some { success := some true, result := some (.arr [.num 2]),
                result_info := some { count := 1, per_page := 2, page := 2 } }] =
      .ok ([.num 1, .num 2],
           [(API.get ["zones"]).request, ((API.get ["zones"]).setPage 2).request],
           (API.get ["zones"]).setPage 2) ∧
    [(API.get ["zones"]).request, ((API.get ["zones"]).setPage 2).request].map
        pageParam = [none, some (.num 2)] := by
  have hfull : FullEnv { success := some true, result := some (.arr [.num 1]),
                         result_info := some { count := 2, per_page := 2, page := 1 } } :=
    ⟨rfl, ⟨[.num 1], rfl⟩, { count := 2, per_page := 2, page := 1 }, rfl,
      le_refl (2 : Int)⟩
  have hterm : TerminalEnv { success := some true, result := some (.arr [.num 2]),
                             result_info := some { count := 1, per_page := 2, page := 2 } } :=
    ⟨rfl, ⟨[.num 2], rfl⟩,
      Or.inr ⟨{ count := 1, per_page := 2, page := 2 }, rfl, by decide⟩⟩
  refine ⟨⟨rfl, rfl, hfull, hterm⟩, ?_⟩
  exact c1_pagination
    [{ success := some true, result := some (.arr [.num 1]),
       result_info := some { count := 2, per_page := 2, page := 1 } }]
    { success := some true, result := some (.arr [.num 2]),
      result_info := some { count := 1, per_page := 2, page := 2 } }
    [] (API.get ["zones"]) rfl rfl
    (by intro x hx; rw [List.mem_singleton] at hx; subst hx; exact hfull) hterm

/-- C1, counterexample to the claim as stated: an envelope with
`count = 5 > per_page = 3` (so `count ≠ per_page`) still causes a next
request with `params.page = 2`, because the code only stops when
`count < per_page`. -/
theorem c1_counterexample :
    (API.get ["zones"]).iterStream
        [some { success := some true, result := some (.arr [.num 1]),
                result_info := some { count := 5, per_page := 3, page := 1 } },
         some { success := some true, result := some (.arr [.num 2]),
                result_info := some { count := 0, per_page := 3, page := 2 } }] =
      .ok ([.num 1, .num 2],
           [(API.get ["zones"]).request, ((API.get ["zones"]).setPage 2).request],
           (API.get ["zones"]).setPage 2) ∧
    pageParam ((API.get ["zones"]).setPage 2).request = some (.num 2) ∧
    (5 : Int) ≠ 3 :=
  ⟨rfl, rfl, by decide⟩

/-- C2: an exact-multiple result set (every page has
`count = per_page`, pages numbered from 1) causes exactly one extra
request; the final empty page (`count = 0`) terminates iteration, and
the items yielded are precisely the concatenation of the pages — each
exactly once, none missing; the requests carry pages
`none, 2, 3, ...`. -/
theorem c2_exact_multiple (pages : List (List JVal)) (pp : Int)
    (path : List String) (hpp : 0 < pp) :
    (API.get path).iterStream
        (okStream (fullEnvsOf pp 1 pages ++ [emptyLastEnv pp (1 + pages.length)])) =
      .ok (pages.flatten,
           preTrace (API.get path) (fullEnvsOf pp 1 pages) ++
             [(preState (API.get path) (fullEnvsOf pp 1 pages)).request],
           preState (API.get path) (fullEnvsOf pp 1 pages)) ∧
    (preTrace (API.get path) (fullEnvsOf pp 1 pages) ++
        [(preState (API.get path) (fullEnvsOf pp 1 pages)).request]).length =
      pages.length + 1 ∧
    (preTrace (API.get path) (fullEnvsOf pp 1 pages) ++
        [(preState (API.get path) (fullEnvsOf pp 1 pages)).request]).map pageParam =
      none :: (List.range pages.length).map
        (fun j : Nat => some (JVal.num ((j : Int) + 2))) := by
  have hfull := fullEnvsOf_full pp pages 1
  have hterm : TerminalEnv (emptyLastEnv pp (1 + pages.length)) :=
    ⟨rfl, ⟨[], rfl⟩, Or.inr ⟨{ count := 0, per_page := pp, page := 1 + pages.length },
      rfl, hpp⟩⟩
  have hm' : (preState (API.get path) (fullEnvsOf pp 1 pages)).request.method =
      "GET" := by rw [preState_method]; rfl
  have hp' : (preState (API.get path) (fullEnvsOf pp 1 pages)).payload = [] := by
    rw [preState_payload]; rfl
  have hstream : okStream (fullEnvsOf pp 1 pages ++ [emptyLastEnv pp (1 + pages.length)]) =
      okStream (fullEnvsOf pp 1 pages) ++ some (emptyLastEnv pp (1 + pages.length)) :: [] := by
    simp [okStream]
  refine ⟨?_, ?_, ?_⟩
  · rw [hstream,
      iterStream_full_run (fullEnvsOf pp 1 pages) (API.get path) _ rfl rfl hfull,
      iterStream_terminal _ _ _ hm' hp' hterm]
    simp [preItems_fullEnvsOf, resultElems, emptyLastEnv]
  · simp [preTrace_length, fullEnvsOf_length]
  · rw [preTrace_snoc_pages, pages_fullEnvsOf]
    have : pageParam (API.get path).request = none := rfl
    rw [this]
    congr 1
    refine List.map_congr_left fun j hj => ?_
    congr 2
    ring

/-- C3: when the first envelope's `result` is a single object,
iteration yields exactly that object after one request, regardless of
`result_info` and of any further responses; `all()` returns the
one-element list and `first()` returns the same object. -/
theorem c3_single_object (q : APIQuery) (e : Envelope) (rest : List Response)
    (o : List (String × JVal)) (hs : e.success = some true)
    (hr : e.result = some (.obj o)) :
    q.iterStream (some e :: rest) =
      .ok ([.obj o], [q.sendPrep.request], q.sendPrep) ∧
    q.all (some e :: rest) = .ok [.obj o] ∧
    q.first (some e :: rest) = .ok (some (.obj o)) := by
  have h := iterStream_obj q e rest o hs hr
  refine ⟨h, ?_, ?_⟩
  · simp [APIQuery.all, h, Except.map]
  · simp [APIQuery.first, APIQuery.all, h, Except.map]

/-- C3, witness: a GET query answered by a single-object envelope that
even carries a full-page `result_info` and is followed by a further
(never consulted) response still yields exactly the one object. -/
theorem c3_single_object_witness :
    (({ success := some true, result := some (.obj [("id", JVal.str "ABC")]),
        result_info := some { count := 50, per_page := 50, page := 1 } } :
          Envelope).success = some true ∧
      ({ success := some true, result := some (.obj [("id", JVal.str "ABC")]),
         result_info := some { count := 50, per_page := 50, page := 1 } } :
           Envelope).result = some (.obj [("id", JVal.str "ABC")])) ∧
    (API.get ["zones", "ABC"]).all
        [some { success := some true, result := some (.obj [("id", JVal.str "ABC")]),
                result_info := some { count := 50, per_page := 50, page := 1 } },
         some { success := some false }] =
      .ok [.obj [("id", JVal.str "ABC")]] ∧
    (API.get ["zones", "ABC"]).first
        [some { success := some true, result := some (.obj [("id", JVal.str "ABC")]),
                result_info := some { count := 50, per_page := 50, page := 1 } },
         some { success := some false }] =
      .ok (some (.obj [("id", JVal.str "ABC")])) :=
  ⟨⟨rfl, rfl⟩,
    (c3_single_object (API.get ["zones", "ABC"]) _ [some { success := some false }]
      [("id", JVal.str "ABC")] rfl rfl).2⟩

/-- C4: the code of `CloudFlare.api` is broken with respect to this
claim: it looks up `ctx.cloudflare_api` but stores the new handle under
`ctx.api`, so the cache is never hit; on a context with neither
attribute set, a first access returns handle 1, leaves
`cloudflare_api` unset, and a second access builds and returns a fresh
handle 2 instead of the stored one. -/
theorem c4_cache_never_hit :
    (CloudFlare.api 1 {}).1 = 1 ∧
    ((CloudFlare.api 1 {}).2).api = some 1 ∧
    ((CloudFlare.api 1 {}).2).cloudflare_api = none ∧
    (CloudFlare.api 2 (CloudFlare.api 1 {}).2).1 = 2 ∧
    (CloudFlare.api 2 (CloudFlare.api 1 {}).2).1 ≠ (CloudFlare.api 1 {}).1 := by
  decide

/-- C5: `send` raises `APIError` exactly when the response body does
not parse as JSON or the parsed `success` field is absent or `false`;
when the body parses and `success` is `true`, it returns the parsed
envelope unchanged (paired with the prepared query state). -/
theorem c5_send_validation (q : APIQuery) (resp : Response) :
    (q.send resp = .error .apiError ↔
      resp = none ∨ ∃ e, resp = some e ∧
        (e.success = none ∨ e.success = some false)) ∧
    ∀ (e : Envelope) (q' : APIQuery),
      q.send resp = .ok (e, q') ↔
        resp = some e ∧ e.success = some true ∧ q' = q.sendPrep := by
  constructor
  · cases resp with
    | none => simp [APIQuery.send, APIQuery.sendCheck, Except.map]
    | some e0 =>
      cases hsucc : e0.success with
      | none => simp [APIQuery.send, APIQuery.sendCheck, hsucc, Except.map]
      | some b =>
        cases b <;> simp [APIQuery.send, APIQuery.sendCheck, hsucc, Except.map]
  · intro e q'
    cases resp with
    | none => simp [APIQuery.send, APIQuery.sendCheck, Except.map]
    | some e0 =>
      cases hsucc : e0.success with
      | none =>
        simp only [APIQuery.send, APIQuery.sendCheck, hsucc, Except.map]
        constructor
        · intro h; simp at h
        · rintro ⟨h1, h2, -⟩
          rw [Option.some_inj] at h1
          subst h1
          rw [hsucc] at h2
          simp at h2
      | some b =>
        cases b with
        | false =>
          simp only [APIQuery.send, APIQuery.sendCheck, hsucc, Except.map]
          constructor
          · intro h; simp at h
          · rintro ⟨h1, h2, -⟩
            rw [Option.some_inj] at h1
            subst h1
            rw [hsucc] at h2
            simp at h2
        | true =>
          simp only [APIQuery.send, APIQuery.sendCheck, hsucc, Except.map]
          constructor
          · intro h
            simp only [Except.ok.injEq, Prod.mk.injEq] at h
            exact ⟨by rw [h.1], by rw [← h.1, hsucc], h.2.symm⟩
          · rintro ⟨h1, -, h3⟩
            rw [Option.some_inj] at h1
            subst h1
            rw [h3]

/-- C6: `filter` on a non-GET query fails the `assert` (the spec's
`UsageError`) before touching any state, and `values` on a query that
is neither POST nor PUT does likewise; in the allowed cases `filter`
merges its keyword arguments into `descriptor.params` and `values`
merges them into the payload, returning the updated query. -/
theorem c6_fluent_guards (q : APIQuery) (kwargs : List (String × JVal)) :
    (q.request.method ≠ "GET" → q.filter kwargs = .error .usageError) ∧
    (q.request.method ≠ "POST" → q.request.method ≠ "PUT" →
      q.values kwargs = .error .usageError) ∧
    (q.request.method = "GET" →
      q.filter kwargs = .ok { q with request := { q.request with
        params := dictUpdate q.request.params kwargs } }) ∧
    (q.request.method = "POST" ∨ q.request.method = "PUT" →
      q.values kwargs = .ok { q with
        payload := dictUpdate q.payload kwargs }) ∧
    (q.request.method ≠ "GET" → applyOp q (.filterOp kwargs) = q) ∧
    (q.request.method ≠ "POST" → q.request.method ≠ "PUT" →
      applyOp q (.valuesOp kwargs) = q) := by
  refine ⟨fun h => ?_, fun h1 h2 => ?_, fun h => ?_, fun h => ?_,
    fun h => ?_, fun h1 h2 => ?_⟩
  · simp [APIQuery.filter, h]
  · simp [APIQuery.values, h1, h2]
  · simp [APIQuery.filter, h]
  · simp [APIQuery.values, h]
  · simp [applyOp, APIQuery.filter, h]
  · simp [applyOp, APIQuery.values, h1, h2]

/-- C6, witness: `filter` on a POST query and `values` on a GET query
fail; `filter` on GET and `values` on PUT merge and succeed. -/
theorem c6_fluent_guards_witness :
    ((API.post ["zones"]).request.method ≠ "GET" ∧
      (API.get ["zones"]).request.method ≠ "POST" ∧
      (API.put ["zones", "ABC"]).request.method = "PUT") ∧
    (API.post ["zones"]).filter [("name", .str "example.org")] =
      .error .usageError ∧
    (API.get ["zones"]).values [("paused", .bool true)] = .error .usageError ∧
    (API.get ["zones"]).filter [("name", .str "example.org")] =
      .ok { API.get ["zones"] with request := { (API.get ["zones"]).request with
        params := [("name", JVal.str "example.org")] } } ∧
    (API.put ["zones", "ABC"]).values [("paused", .bool true)] =
      .ok { API.put ["zones", "ABC"] with
        payload := [("paused", JVal.bool true)] } ∧
    applyOp (API.post ["zones"]) (.filterOp [("name", .str "example.org")]) =
      API.post ["zones"] ∧
    applyOp (API.get ["zones"]) (.valuesOp [("paused", .bool true)]) =
      API.get ["zones"] :=
  ⟨⟨by decide, by decide, rfl⟩,
    (c6_fluent_guards (API.post ["zones"]) [("name", .str "example.org")]).1
      (by decide),
    (c6_fluent_guards (API.get ["zones"]) [("paused", .bool true)]).2.1
      (by decide) (by decide),
    (c6_fluent_guards (API.get ["zones"]) [("name", .str "example.org")]).2.2.1
      rfl,
    (c6_fluent_guards (API.put ["zones", "ABC"]) [("paused", .bool true)]).2.2.2.1
      (Or.inr rfl),
    (c6_fluent_guards (API.post ["zones"])
        [("name", .str "example.org")]).2.2.2.2.1 (by decide),
    (c6_fluent_guards (API.get ["zones"])
        [("paused", .bool true)]).2.2.2.2.2 (by decide) (by decide)⟩

/-- C7: when the payload is non-empty, the prepared request carries
`Content-Type: application/json` and a body equal to the JSON
serialization of the payload; when the payload is empty (on a request
that starts with no body and no `Content-Type`), the prepared request
still has no body and no `Content-Type` header. -/
theorem c7_payload_body (q : APIQuery)
    (hd : q.request.data = none)
    (hh : dictGet q.request.headers "Content-Type" = none) :
    (q.payload ≠ [] →
      q.sendPrep.request.data = some (jsonDumps (.obj q.payload)) ∧
      dictGet q.sendPrep.request.headers "Content-Type" =
        some "application/json") ∧
    (q.payload = [] →
      q.sendPrep.request.data = none ∧
      dictGet q.sendPrep.request.headers "Content-Type" = none) := by
  obtain ⟨r, p⟩ := q
  cases p with
  | nil => exact ⟨fun hne => absurd rfl hne, fun _ => ⟨hd, hh⟩⟩
  | cons a t =>
    refine ⟨fun _ => ⟨rfl, dictGet_dictSet_self _ _ _⟩, fun h => by simp at h⟩

/-- C7, witness: a PUT query with payload `paused = true` gets the JSON
body and the `Content-Type` header; a fresh GET query with empty
payload gets neither. -/
theorem c7_payload_body_witness :
    (({ request := API.request "PUT" ["zones", "ABC"], payload := [("paused", JVal.bool true)] } : APIQuery).request.data = none ∧
      ({ request := API.request "PUT" ["zones", "ABC"], payload := [("paused", JVal.bool true)] } : APIQuery).payload ≠ []) ∧
    ({ request := API.request "PUT" ["zones", "ABC"], payload := [("paused", JVal.bool true)] } : APIQuery).sendPrep.request.data =
      some (jsonDumps (.obj [("paused", JVal.bool true)])) ∧
    dictGet ({ request := API.request "PUT" ["zones", "ABC"], payload := [("paused", JVal.bool true)] } : APIQuery).sendPrep.request.headers "Content-Type" =
      some "application/json" ∧
    (API.get ["zones"]).sendPrep.request.data = none ∧
    dictGet (API.get ["zones"]).sendPrep.request.headers "Content-Type" =
      none := by
  refine ⟨⟨rfl, by simp⟩, ?_, ?_, ?_, ?_⟩
  · exact ((c7_payload_body { request := API.request "PUT" ["zones", "ABC"], payload := [("paused", JVal.bool true)] } rfl rfl).1 (by simp)).1
  · exact ((c7_payload_body { request := API.request "PUT" ["zones", "ABC"], payload := [("paused", JVal.bool true)] } rfl rfl).1 (by simp)).2
  · exact ((c7_payload_body (API.get ["zones"]) rfl rfl).2 rfl).1
  · exact ((c7_payload_body (API.get ["zones"]) rfl rfl).2 rfl).2

/-- C8 (amended: a drained query is restartable, not empty: calling
`__iter__` again restarts the generator with the descriptor exactly as
the first traversal left it, so it re-issues the final request of the
first traversal; when the server again answers that request with the
same terminating short page, the second traversal yields that page's
elements again — the empty sequence arises only when the final page
was empty). -/
theorem c8_reiteration (server : Request → Response) (fuel fuel' : Nat)
    (q : APIQuery) (items : List JVal) (tr : List Request) (qf : APIQuery)
    (e : Envelope) (xs : List JVal) (i : RInfo)
    (hm : q.request.method = "GET") (hp : q.payload = [])
    (hrun : APIQuery.iterServe server fuel q = .ok (items, tr, qf))
    (hresp : server qf.request = some e)
    (hs : e.success = some true) (hr : e.result = some (.arr xs))
    (hi : e.result_info = some i) (hshort : i.count < i.per_page) :
    tr.getLast? = some qf.request ∧
    APIQuery.iterServe server (fuel' + 1) qf = .ok (xs, [qf.request], qf) := by
  obtain ⟨hlast, hpay, hmeth⟩ := iterServe_ok_state server fuel q items tr qf hrun
  have hqfpay : qf.payload = [] := by rw [hpay, hp]
  have hqfprep : qf.sendPrep = qf := sendPrep_of_payload_nil hqfpay
  have hqfm : qf.request.method = "GET" := by rw [hmeth, hm]
  refine ⟨hlast, ?_⟩
  simp only [APIQuery.iterServe, hqfprep, hresp, APIQuery.send,
    APIQuery.sendCheck, hs, Except.map, APIQuery.iterStep, hr, hi, hqfm,
    eq_self_iff_true, if_true, if_pos hshort]

/-- C8, witness: a constant server answering every request with a short
one-element page; the first traversal leaves the descriptor untouched,
and re-iterating re-sends that same request and yields the element
again. -/
theorem c8_reiteration_witness :
    ((API.get ["zones"]).request.method = "GET" ∧
      APIQuery.iterServe
        (fun _ => some { success := some true, result := some (.arr [.num 7]),
                         result_info := some { count := 1, per_page := 50, page := 1 } })
        1 (API.get ["zones"]) =
        .ok ([.num 7], [(API.get ["zones"]).request], API.get ["zones"]) ∧
      (1 : Int) < 50) ∧
    [(API.get ["zones"]).request].getLast? = some (API.get ["zones"]).request ∧
    APIQuery.iterServe
        (fun _ => some { success := some true, result := some (.arr [.num 7]),
                         result_info := some { count := 1, per_page := 50, page := 1 } })
        (0 + 1) (API.get ["zones"]) =
      .ok ([.num 7], [(API.get ["zones"]).request], API.get ["zones"]) :=
  ⟨⟨rfl, rfl, by decide⟩,
    c8_reiteration
      (fun _ => some { success := some true, result := some (.arr [.num 7]),
                       result_info := some { count := 1, per_page := 50, page := 1 } })
      1 0 (API.get ["zones"]) [.num 7] [(API.get ["zones"]).request]
      (API.get ["zones"])
      { success := some true, result := some (.arr [.num 7]),
        result_info := some { count := 1, per_page := 50, page := 1 } }
      [.num 7] { count := 1, per_page := 50, page := 1 }
      rfl rfl rfl rfl rfl rfl rfl (by decide)⟩

/-- C8, counterexample to the claim as stated: draining a GET query
whose single page is short leaves the descriptor unchanged, so a second
traversal of the same (drained) query object re-sends the request and
yields `[7]` again — not the empty sequence. -/
theorem c8_counterexample :
    APIQuery.iterServe
        (fun _ => some { success := some true, result := some (.arr [.num 7]),
                         result_info := some { count := 1, per_page := 50, page := 1 } })
        1 (API.get ["zones"]) =
      .ok ([.num 7], [(API.get ["zones"]).request], API.get ["zones"]) ∧
    APIQuery.iterServe
        (fun _ => some { success := some true, result := some (.arr [.num 7]),
                         result_info := some { count := 1, per_page := 50, page := 1 } })
        1 (API.get ["zones"]) =
      .ok ([.num 7], [(API.get ["zones"]).request], API.get ["zones"]) ∧
    ([JVal.num 7] : List JVal) ≠ [] :=
  ⟨rfl, rfl, by simp⟩

/-- C9: every request sent during the iteration of a GET query with
empty payload agrees with the original descriptor on the method, URL,
headers, body and every `params` entry other than `page` — in
particular all filters accumulated before iteration are carried by
every page request. -/
theorem c9_only_page_mutated (q : APIQuery) (resps : List Response)
    (items : List JVal) (tr : List Request) (qf : APIQuery)
    (hm : q.request.method = "GET") (hp : q.payload = [])
    (hrun : q.iterStream resps = .ok (items, tr, qf)) :
    ∀ r ∈ tr, r.method = q.request.method ∧ r.url = q.request.url ∧
      r.headers = q.request.headers ∧ r.data = q.request.data ∧
      ∀ k : String, k ≠ "page" →
        dictGet r.params k = dictGet q.request.params k :=
  iterStream_frame resps q items tr qf hp hrun

/-- C9, witness: a filtered GET query iterated over a full page and a
short page; the second request still carries the `name` filter and the
original method, URL, headers and (absent) body. -/
theorem c9_only_page_mutated_witness :
    (filteredZones.request.method = "GET" ∧ filteredZones.payload = [] ∧
      filteredZones.iterStream
          [some { success := some true, result := some (.arr [.num 1]),
                  result_info := some { count := 1, per_page := 1, page := 1 } },
           some { success := some true, result := some (.arr [.num 2]),
                  result_info := some { count := 0, per_page := 1, page := 2 } }] =
        .ok ([.num 1, .num 2],
             [filteredZones.request, (filteredZones.setPage 2).request],
             filteredZones.setPage 2)) ∧
    (filteredZones.setPage 2).request.method = filteredZones.request.method ∧
    (filteredZones.setPage 2).request.url = filteredZones.request.url ∧
    (filteredZones.setPage 2).request.headers = filteredZones.request.headers ∧
    (filteredZones.setPage 2).request.data = filteredZones.request.data ∧
    dictGet (filteredZones.setPage 2).request.params "name" =
      dictGet filteredZones.request.params "name" := by
  refine ⟨⟨rfl, rfl, rfl⟩, ?_⟩
  have h := c9_only_page_mutated filteredZones
    [some { success := some true, result := some (.arr [.num 1]),
            result_info := some { count := 1, per_page := 1, page := 1 } },
     some { success := some true, result := some (.arr [.num 2]),
            result_info := some { count := 0, per_page := 1, page := 2 } }]
    [.num 1, .num 2] [filteredZones.request, (filteredZones.setPage 2).request]
    (filteredZones.setPage 2) rfl rfl rfl
    ((filteredZones.setPage 2).request) (by simp)
  exact ⟨h.1, h.2.1, h.2.2.1, h.2.2.2.1, h.2.2.2.2 "name" (by decide)⟩

/-- C10: on a GET or DELETE query the payload stays empty under any
sequence of fluent operations (`values` fails its `assert` on these
methods and `filter` never touches the payload), so the prepared
request never gains a JSON body or a `Content-Type` header. -/
theorem c10_get_delete_no_body (q : APIQuery) (ops : List QOp)
    (hm : q.request.method = "GET" ∨ q.request.method = "DELETE")
    (hp : q.payload = []) :
    (runOps q ops).payload = [] ∧
    (runOps q ops).sendPrep = runOps q ops ∧
    (runOps q ops).request.data = q.request.data ∧
    (runOps q ops).request.headers = q.request.headers := by
  have key : ∀ (ops : List QOp) (q : APIQuery),
      (q.request.method = "GET" ∨ q.request.method = "DELETE") →
      q.payload = [] →
      (runOps q ops).payload = [] ∧
        (runOps q ops).request.data = q.request.data ∧
        (runOps q ops).request.headers = q.request.headers := by
    intro ops
    induction ops with
    | nil => intro q hm hp; exact ⟨hp, rfl, rfl⟩
    | cons op ops ih =>
      intro q hm hp
      have hnp : ¬ (q.request.method = "POST" ∨ q.request.method = "PUT") := by
        rcases hm with h | h <;> simp [h]
      have h1 : (applyOp q op).payload = [] := by
        rw [applyOp_payload q op hnp, hp]
      have h2 : (applyOp q op).request.method = "GET" ∨
          (applyOp q op).request.method = "DELETE" := by
        rw [applyOp_method]; exact hm
      obtain ⟨a, b, c⟩ := ih (applyOp q op) h2 h1
      simp only [runOps]
      exact ⟨a, by rw [b, applyOp_data], by rw [c, applyOp_headers]⟩
  obtain ⟨a, b, c⟩ := key ops q hm hp
  exact ⟨a, sendPrep_of_payload_nil a, b, c⟩

/-- C10, witness: a DELETE query hit with a `values` and a `filter`
call (both of which fail their asserts) keeps an empty payload, and
its prepared request has no body and no headers added. -/
theorem c10_get_delete_no_body_witness :
    ((API.delete ["zones", "ABC"]).request.method = "DELETE" ∧
      (API.delete ["zones", "ABC"]).payload = []) ∧
    (runOps (API.delete ["zones", "ABC"])
        [QOp.valuesOp [("paused", .bool true)],
         QOp.filterOp [("name", .str "x")]]).payload = [] ∧
    (runOps (API.delete ["zones", "ABC"])
        [QOp.valuesOp [("paused", .bool true)],
         QOp.filterOp [("name", .str "x")]]).sendPrep =
      runOps (API.delete ["zones", "ABC"])
        [QOp.valuesOp [("paused", .bool true)],
         QOp.filterOp [("name", .str "x")]] ∧
    (runOps (API.delete ["zones", "ABC"])
        [QOp.valuesOp [("paused", .bool true)],
         QOp.filterOp [("name", .str "x")]]).request.data =
      (API.delete ["zones", "ABC"]).request.data ∧
    (runOps (API.delete ["zones", "ABC"])
        [QOp.valuesOp [("paused", .bool true)],
         QOp.filterOp [("name", .str "x")]]).request.headers =
      (API.delete ["zones", "ABC"]).request.headers :=
  ⟨⟨rfl, rfl⟩,
    c10_get_delete_no_body (API.delete ["zones", "ABC"])
      [QOp.valuesOp [("paused", .bool true)], QOp.filterOp [("name", .str "x")]]
      (Or.inr rfl) rfl⟩

/-- C2, witness: two full pages of two items each (`per_page = 2`)
followed by the final empty page; `all` of the iteration is the four
items once each, across three requests with pages `-, 2, 3`. -/
theorem c2_exact_multiple_witness :
    (0 : Int) < 2 ∧
    (API.get ["dns_records"]).iterStream
        (okStream (fullEnvsOf 2 1 [[.num 1, .num 2], [.num 3, .num 4]] ++
          [emptyLastEnv 2 3])) =
      .ok ([.num 1, .num 2, .num 3, .num 4],
           [(API.get ["dns_records"]).request,
            ((API.get ["dns_records"]).setPage 2).request,
            (((API.get ["dns_records"]).setPage 2).setPage 3).request],
           ((API.get ["dns_records"]).setPage 2).setPage 3) ∧
    ([(API.get ["dns_records"]).request,
      ((API.get ["dns_records"]).setPage 2).request,
      (((API.get ["dns_records"]).setPage 2).setPage 3).request] :
        List Request).length = 3 ∧
    ([(API.get ["dns_records"]).request,
      ((API.get ["dns_records"]).setPage 2).request,
      (((API.get ["dns_records"]).setPage 2).setPage 3).request] :
        List Request).map pageParam =
      [none, some (.num 2), some (.num 3)] := by
  refine ⟨by decide, ?_, ?_, ?_⟩
  · exact (c2_exact_multiple [[.num 1, .num 2], [.num 3, .num 4]] 2
      ["dns_records"] (by decide)).1
  · exact (c2_exact_multiple [[.num 1, .num 2], [.num 3, .num 4]] 2
      ["dns_records"] (by decide)).2.1
  · exact (c2_exact_multiple [[.num 1, .num 2], [.num 3, .num 4]] 2
      ["dns_records"] (by decide)).2.2

/-- C5, witness: an unparseable body and a `success: false` body each
raise `APIError`; a `success: true` body returns the parsed envelope
unchanged. -/
theorem c5_send_validation_witness :
    (API.get ["zones"]).send none = .error .apiError ∧
    (API.get ["zones"]).send (some { success := some false }) =
      .error .apiError ∧
    (API.get ["zones"]).send
        (some { success := some true, result := some (.arr []) }) =
      .ok ({ success := some true, result := some (.arr []) },
           (API.get ["zones"]).sendPrep) :=
  ⟨(c5_send_validation (API.get ["zones"]) none).1.mpr (Or.inl rfl),
    (c5_send_validation (API.get ["zones"]) (some { success := some false })).1.mpr
      (Or.inr ⟨{ success := some false }, rfl, Or.inr rfl⟩),
    (c5_send_validation (API.get ["zones"])
        (some { success := some true, result := some (.arr []) })).2
      { success := some true, result := some (.arr []) }
      (API.get ["zones"]).sendPrep |>.mpr ⟨rfl, rfl, rfl⟩⟩
